import Mathlib

/-!
Verification of the NASA near-Earth-object pipeline (`src/main.py`).

The pipeline fetches a feed of asteroid close-approach data, flattens it
into tabular rows (`transform_data`), computes summary statistics
(`make_dict`), and persists/queries rows in a relational table
(`insert_data`, `get_information`).  The Python code operates on pandas
DataFrames and IEEE doubles; we embed it shallowly:

* JSON numbers are modelled as exact rationals (`ℚ`); the float
  arithmetic of the source is idealised as exact arithmetic, except that
  division is given the IEEE/numpy semantics (division by zero yields
  an infinity or NaN rather than raising), which is what pandas does.
* Python exceptions become an explicit error type `PyError` and fallible
  functions return `Except PyError _`.
* A pandas frame of pipeline rows is a `List` of row structures in frame
  order; `pd.json_normalize` with `record_path="close_approach_data"`
  is the corresponding list flattening.  A day whose asteroids have zero
  close-approach events in total normalizes to a frame that lacks the
  `cpd.*` record columns, so the column selection `df[[...]]` in
  `transform_data` raises `KeyError` there; the embedding reproduces this.
-/

/-- Pandas/numpy float results that the summariser can meet: a finite
value, a signed infinity (float division by zero), or NaN (`0.0/0.0`). -/
inductive PFloat where
  | finite (q : ℚ)
  | inf
  | neginf
  | nan
deriving DecidableEq, Repr

/-- Numpy float division semantics: finite quotient when the divisor is
nonzero, otherwise a signed infinity (or NaN for `0.0/0.0`); no exception
is raised. -/
def npDiv (a b : ℚ) : PFloat :=
  if b ≠ 0 then .finite (a / b)
  else if 0 < a then .inf
  else if a < 0 then .neginf
  else .nan

/-- Division of a pandas float by the positive constant `360` (the
conversion constant appearing in `make_dict`). -/
def npDiv360 : PFloat → PFloat
  | .finite q => .finite (q / 360)
  | .inf => .inf
  | .neginf => .neginf
  | .nan => .nan

/-- Order used by `Series.min` on non-NaN floats. -/
def pfLe : PFloat → PFloat → Bool
  | .nan, _ => true
  | _, .nan => true
  | .neginf, _ => true
  | _, .neginf => false
  | .finite a, .finite b => a ≤ b
  | .finite _, .inf => true
  | .inf, .finite _ => false
  | .inf, .inf => true

/-- `pandas.Series.min()` with its default `skipna=True`: NaN entries are
dropped; the minimum of the rest is taken (infinities participate); an
empty or all-NaN series yields NaN. -/
def seriesMin (xs : List PFloat) : PFloat :=
  match xs.filter (fun x => x ≠ .nan) with
  | [] => .nan
  | y :: ys => ys.foldl (fun m x => if pfLe x m then x else m) y

/-- Python `round` on a finite float with no `ndigits`: round half to
even, returning an integer. -/
def pyRound (q : ℚ) : ℤ :=
  if 2 * (q - ⌊q⌋) < 1 then ⌊q⌋
  else if 1 < 2 * (q - ⌊q⌋) then ⌊q⌋ + 1
  else if ⌊q⌋ % 2 = 0 then ⌊q⌋ else ⌊q⌋ + 1

/-- The Python exceptions the modelled pipeline can raise. -/
inductive PyError where
  /-- `KeyError`, carrying the missing key / column description. -/
  | keyError (msg : String)
  /-- `IndexError` from `.iloc[0]` on an empty frame. -/
  | indexError
  /-- `OverflowError` from `round` applied to an infinity. -/
  | overflowError
  /-- `ValueError` from `round` applied to NaN. -/
  | valueError
deriving DecidableEq, Repr

/-- Python `round` on a pandas float: finite values round half to even;
`round(inf)` raises `OverflowError`; `round(nan)` raises `ValueError`. -/
def pyRoundFloat : PFloat → Except PyError ℤ
  | .finite q => .ok (pyRound q)
  | .inf => .error .overflowError
  | .neginf => .error .overflowError
  | .nan => .error .valueError

/-! ## Data model (§3 of the spec, shapes taken from the feed JSON) -/

/-- One close-approach event of an asteroid: the fields of the feed that
`transform_data` selects (`cpd.relative_velocity.kilometers_per_second`,
`cpd.miss_distance.kilometers`, `cpd.close_approach_date`); other unit
fields are discarded by the column selection and not modelled. -/
structure CloseApproachEvent where
  relative_velocity_km_sec : ℚ
  miss_distance_km : ℚ
  close_approach_date : String
deriving DecidableEq, Repr

/-- The nested `estimated_diameter` structure.  `kilometers = none`
models a record whose diameter structure lacks the kilometer-unit field;
`some (mn, mx)` carries `estimated_diameter_min` / `estimated_diameter_max`
in kilometers.  Other units are never read by the code. -/
structure EstimatedDiameter where
  kilometers : Option (ℚ × ℚ)
deriving DecidableEq, Repr

/-- One asteroid record of the feed. -/
structure AsteroidRecord where
  id : ℤ
  name : String
  is_potentially_hazardous_asteroid : Bool
  estimated_diameter : EstimatedDiameter
  close_approach_data : List CloseApproachEvent
deriving DecidableEq, Repr

/-- The raw feed: a mapping from date string to the asteroids of that
date, as an association list in dictionary insertion order. -/
abbrev RawFeed := List (String × List AsteroidRecord)

/-- A row of the per-day frame produced by `pd.json_normalize` and the
first column selection: event columns plus the meta columns, with the
`estimated_diameter` dict still unexploded. -/
structure PairRow where
  id : ℤ
  name : String
  is_potentially_hazardous_asteroid : Bool
  estimated_diameter : EstimatedDiameter
  relative_velocity_km_sec : ℚ
  miss_distance_km : ℚ
  close_approach_date : String
deriving DecidableEq, Repr

/-- A row of the final frame returned by `transform_data` (and of the
`asteroids` table). -/
structure FlatRow where
  id : ℤ
  name : String
  is_potentially_hazardous_asteroid : Bool
  estimated_diameter_min_km : ℚ
  estimated_diameter_max_km : ℚ
  relative_velocity_km_sec : ℚ
  miss_distance_km : ℚ
  searching_date : String
deriving DecidableEq, Repr

/-! ## Feed client (`get_response`, main.py lines 12-26) -/

/-- `get_response`, modelled on the HTTP response it receives: the status
code and the decoded `near_earth_objects` field of the body.  On status
200 it returns the raw feed; on any other status the Python code prints
`"Error!"` and falls off the end of the function, returning `None` —
modelled as `none` (the print is an unmodelled side effect). -/
def get_response (status : ℕ) (near_earth_objects : RawFeed) : Option RawFeed :=
  if status = 200 then some near_earth_objects else none

/-! ## Flattener (`transform_data`, main.py lines 29-92) -/

/-- The normalized row for one (asteroid, close-approach event) pair:
event columns plus the asteroid's meta columns. -/
def pairRowOf (a : AsteroidRecord) (e : CloseApproachEvent) : PairRow :=
  { id := a.id
    name := a.name
    is_potentially_hazardous_asteroid := a.is_potentially_hazardous_asteroid
    estimated_diameter := a.estimated_diameter
    relative_velocity_km_sec := e.relative_velocity_km_sec
    miss_distance_km := e.miss_distance_km
    close_approach_date := e.close_approach_date }

/-- The frame `pd.json_normalize(report[day], record_path="close_approach_data",
meta=[...], record_prefix="cpd.")` for one day: one row per
(asteroid, close-approach event) pair, in source order. -/
def normalize_day (recs : List AsteroidRecord) : List PairRow :=
  recs.flatMap fun a => a.close_approach_data.map (pairRowOf a)

/-- The per-day body of the loop in `transform_data`: normalize, then
select the seven columns.  When the day contributes no
(asteroid, event) rows the normalized frame lacks the `cpd.*` record
columns, so the selection `df[[...]]` raises a `KeyError`. -/
def select_day (recs : List AsteroidRecord) : Except PyError (List PairRow) :=
  if normalize_day recs = [] then .error (.keyError "cpd columns not in index")
  else .ok (normalize_day recs)

/-- The full loop of `transform_data`: process each date entry in feed
order and concatenate (`pd.concat`, `ignore_index=True`); the first
failing day aborts. -/
def collect_days : RawFeed → Except PyError (List PairRow)
  | [] => .ok []
  | (_, recs) :: rest =>
    match select_day recs with
    | .error e => .error e
    | .ok rows =>
      match collect_days rest with
      | .error e => .error e
      | .ok more => .ok (rows ++ more)

/-- The diameter-exploding `apply` calls of `transform_data`
(`x["kilometers"]["estimated_diameter_min"]` / `..._max`), followed by
the final column selection and rename: each row's diameter dict must
contain the kilometer field, else `KeyError`. -/
def extract_diam : List PairRow → Except PyError (List FlatRow)
  | [] => .ok []
  | r :: rest =>
    match r.estimated_diameter.kilometers with
    | none => .error (.keyError "kilometers")
    | some (mn, mx) =>
      match extract_diam rest with
      | .error e => .error e
      | .ok more =>
        .ok ({ id := r.id
               name := r.name
               is_potentially_hazardous_asteroid := r.is_potentially_hazardous_asteroid
               estimated_diameter_min_km := mn
               estimated_diameter_max_km := mx
               relative_velocity_km_sec := r.relative_velocity_km_sec
               miss_distance_km := r.miss_distance_km
               searching_date := r.close_approach_date } :: more)

/-- `transform_data`: flatten the raw feed into the final frame.  The
`to_csv` side effect is not modelled. -/
def transform_data (report : RawFeed) : Except PyError (List FlatRow) :=
  match collect_days report with
  | .error e => .error e
  | .ok pairs => extract_diam pairs

/-- Total number of (asteroid, close-approach event) pairs in a feed. -/
def eventCount (report : RawFeed) : ℕ :=
  (report.map fun p => ((p.2.map fun a => a.close_approach_data.length).sum)).sum

/-! ## Summariser (`make_dict`, main.py lines 95-106) -/

/-- The summary dictionary returned by `make_dict`. -/
structure SummaryReport where
  potentially_hazardous_count : ℕ
  name_with_max_estimated_diam : String
  min_collision_hours : ℤ
deriving DecidableEq, Repr

/-- `make_dict`: hazard count, name of the first row attaining the
maximal `estimated_diameter_max_km`, and
`round(((miss_distance_km / relative_velocity_km_sec) / 360).min())`.
On an empty frame, `.max()` is NaN, the equality mask selects no row and
`.iloc[0]` raises `IndexError`. -/
def make_dict : List FlatRow → Except PyError SummaryReport
  | [] => .error .indexError
  | r0 :: rest =>
    let df := r0 :: rest
    let hazard_count := (df.filter fun r => r.is_potentially_hazardous_asteroid).length
    let mx := rest.foldl (fun m r => max m r.estimated_diameter_max_km)
      r0.estimated_diameter_max_km
    let max_name :=
      (((df.find? fun r => r.estimated_diameter_max_km == mx).getD r0)).name
    match pyRoundFloat (seriesMin (df.map fun r =>
        npDiv360 (npDiv r.miss_distance_km r.relative_velocity_km_sec))) with
    | .error e => .error e
    | .ok mh =>
      .ok { potentially_hazardous_count := hazard_count
            name_with_max_estimated_diam := max_name
            min_collision_hours := mh }

/-! ## Store (`table_init` / `insert_data` / `get_information`, main.py lines 120-155)

`table_init` declares `estimated_diameter_min_km`, `estimated_diameter_max_km`,
`relative_velocity_km_sec` and `miss_distance_km` as `REAL` (IEEE binary32)
columns.  `insert_data` serialises each frame row with `str` and splices the
tuples into one `INSERT`: velocity and miss distance are still the feed's
decimal strings, which the database casts straight to `REAL`; the diameters
are Python floats whose `repr` (their exact binary64 value as a shortest
round-tripping decimal) is cast to `REAL`.  `get_information` splices the
miss distance as an unquoted numeric literal, and comparing a `REAL` column
with a numeric literal is carried out at float8: the stored binary32 value
is widened exactly, the literal is rounded to binary64.  We model binary32
and binary64 quantisation exactly on rationals — round to nearest, ties to
even, on a `p`-bit significand; the feed's magnitudes are far from the
overflow and subnormal ranges, which are therefore not modelled. -/

/-- Round a nonnegative rational to `p` significant binary digits,
round to nearest with ties to even. -/
def posRound (p : ℤ) (q : ℚ) : ℚ :=
  if q = 0 then 0
  else
    (pyRound (q * 2 ^ (p - 1 - Int.log 2 q)) : ℚ) *
      2 ^ (Int.log 2 q - p + 1)

/-- Round a rational to `p` significant binary digits (IEEE
round-to-nearest-even in the normal range): `floatRound 24` is storage into
a `REAL` (binary32) column, `floatRound 53` is the binary64 value of a
numeric literal. -/
def floatRound (p : ℤ) (q : ℚ) : ℚ :=
  if q < 0 then -posRound p (-q) else posRound p q

/-- One frame row as the `asteroids` table stores it: the four `REAL`
columns are quantised to binary32 (the diameter floats pass through their
binary64 `repr` first); id, name and date are stored exactly. -/
def storeRow (r : FlatRow) : FlatRow :=
  { r with
    estimated_diameter_min_km := floatRound 24 (floatRound 53 r.estimated_diameter_min_km)
    estimated_diameter_max_km := floatRound 24 (floatRound 53 r.estimated_diameter_max_km)
    relative_velocity_km_sec := floatRound 24 r.relative_velocity_km_sec
    miss_distance_km := floatRound 24 r.miss_distance_km }

/-- `insert_data`: `INSERT INTO asteroids VALUES ...` with one tuple per
frame row appends every row to the table, each stored with its `REAL`
columns quantised to binary32; no key, no deduplication. -/
def insert_data (table : List FlatRow) (df : List FlatRow) : List FlatRow :=
  table ++ df.map storeRow

/-- Relational semantics of the `SELECT` in `get_information` for
well-formed (quote-free) date arguments: names of exactly those persisted
rows whose `searching_date` equals the argument date and whose stored
`REAL` miss distance equals the binary64 value of the spliced numeric
literal. -/
def get_information (table : List FlatRow) (searching_date : String)
    (miss_distance_km : ℚ) : List String :=
  (table.filter fun r =>
    r.searching_date == searching_date &&
      r.miss_distance_km == floatRound 53 miss_distance_km).map
    fun r => r.name

/-! ## The SQL text built by `get_information` (main.py lines 151-153)

`get_information` interpolates its arguments directly into the query
string: `f"SELECT name FROM asteroids WHERE searching_date =
'{searching_date}' AND miss_distance_km = {miss_distance_km}"`.  We model
the text construction verbatim and the way a SQL parser delimits the
date string literal (the characters between the first quote and the
next quote). -/

/-- The single-quote character `'`. -/
def squote : Char := Char.ofNat 39

/-- The query text up to (excluding) the opening quote of the date
literal. -/
def queryHead : String := "SELECT name FROM asteroids WHERE searching_date = "

/-- The query text between the closing quote of the date literal and the
interpolated miss distance. -/
def queryTail : String := " AND miss_distance_km = "

/-- The SQL text `get_information` builds: both arguments are spliced in
verbatim, the date between two single quotes, with no escaping or
parameter binding. -/
def lookup_query (searching_date miss_distance_km : String) : String :=
  queryHead ++ String.singleton squote ++ searching_date
    ++ String.singleton squote ++ queryTail ++ miss_distance_km

/-- The date string literal a SQL parser reads from the query text: the
characters strictly between the first single quote and the following
single quote. -/
def parsedDateLiteral (q : String) : String :=
  String.mk (((q.data.dropWhile fun c => c != squote).drop 1).takeWhile
    fun c => c != squote)

/-! ## Concrete inputs used in the theorems -/

/-- Row A of the spec's concrete scenario (§8): Apophis, hazardous,
max diameter 0.5 km, miss distance 1000 km at 10 km/s. -/
def apophisRow : FlatRow :=
  { id := 1, name := "Apophis", is_potentially_hazardous_asteroid := true,
    estimated_diameter_min_km := 1/10, estimated_diameter_max_km := 1/2,
    relative_velocity_km_sec := 10, miss_distance_km := 1000,
    searching_date := "2023-01-01" }

/-- Row B of the spec's concrete scenario (§8): Bennu, not hazardous,
max diameter 0.3 km, miss distance 2000 km at 5 km/s. -/
def bennuRow : FlatRow :=
  { id := 2, name := "Bennu", is_potentially_hazardous_asteroid := false,
    estimated_diameter_min_km := 1/10, estimated_diameter_max_km := 3/10,
    relative_velocity_km_sec := 5, miss_distance_km := 2000,
    searching_date := "2023-01-02" }

/-- A row whose collision time is 720 seconds: miss 720 km at 1 km/s. -/
def row720 : FlatRow :=
  { id := 3, name := "R720", is_potentially_hazardous_asteroid := false,
    estimated_diameter_min_km := 1, estimated_diameter_max_km := 2,
    relative_velocity_km_sec := 1, miss_distance_km := 720,
    searching_date := "2023-01-01" }

/-- A row with zero relative velocity. -/
def rowZeroVel : FlatRow :=
  { id := 4, name := "ZeroVel", is_potentially_hazardous_asteroid := false,
    estimated_diameter_min_km := 1, estimated_diameter_max_km := 2,
    relative_velocity_km_sec := 0, miss_distance_km := 100,
    searching_date := "2023-01-01" }

/-- A companion row with nonzero velocity: miss 360 km at 1 km/s. -/
def row360 : FlatRow :=
  { id := 5, name := "R360", is_potentially_hazardous_asteroid := false,
    estimated_diameter_min_km := 1/2, estimated_diameter_max_km := 1,
    relative_velocity_km_sec := 1, miss_distance_km := 360,
    searching_date := "2023-01-01" }

/-- A close-approach event. -/
def eventA : CloseApproachEvent :=
  { relative_velocity_km_sec := 7, miss_distance_km := 50000,
    close_approach_date := "2023-01-01" }

/-- An asteroid whose diameter structure lacks the kilometer field and
which has no close-approach events in the window. -/
def asteroidNoKm : AsteroidRecord :=
  { id := 10, name := "NoKm", is_potentially_hazardous_asteroid := false,
    estimated_diameter := { kilometers := none }, close_approach_data := [] }

/-- A well-formed asteroid with one close-approach event. -/
def asteroidOk : AsteroidRecord :=
  { id := 11, name := "Ok", is_potentially_hazardous_asteroid := true,
    estimated_diameter := { kilometers := some (1/10, 1/2) },
    close_approach_data := [eventA] }

/-- An asteroid lacking the kilometer field that does have a
close-approach event. -/
def asteroidNoKmEvents : AsteroidRecord :=
  { id := 12, name := "NoKmEvents", is_potentially_hazardous_asteroid := false,
    estimated_diameter := { kilometers := none }, close_approach_data := [eventA] }

/-! ## Rounding helper lemmas -/

lemma pyRound_eq_of_lt_half (q : ℚ) (n : ℤ) (h1 : (n : ℚ) ≤ q)
    (h2 : q < (n : ℚ) + 1/2) : pyRound q = n := by
  have hfl : ⌊q⌋ = n := by
    rw [Int.floor_eq_iff]
    exact ⟨h1, by linarith⟩
  unfold pyRound
  rw [hfl, if_pos (by linarith)]

lemma pyRound_eq_of_half_lt (q : ℚ) (n : ℤ) (h1 : (n : ℚ) + 1/2 < q)
    (h2 : q < (n : ℚ) + 1) : pyRound q = n + 1 := by
  have hfl : ⌊q⌋ = n := by
    rw [Int.floor_eq_iff]
    exact ⟨by linarith, by linarith⟩
  unfold pyRound
  rw [hfl, if_neg (by linarith), if_pos (by linarith)]

/-! ## Claim theorems (error handling and concrete scenarios) -/

/-- C3: `make_dict` on the empty row-set does not fail with a dedicated
`EmptyInputError`; the `.iloc[0]` on the empty max-diameter selection
raises a plain `IndexError`. -/
theorem make_dict_empty_index_error : make_dict [] = .error .indexError := rfl

/-- C7: a feed in which a date entry maps to an empty asteroid list does
not contribute zero rows — `transform_data` fails, because
`pd.json_normalize` of the empty list yields a frame without the `cpd.*`
columns and the column selection raises `KeyError`. -/
theorem transform_data_empty_day_key_error :
    transform_data [("2023-01-01", [])] = .error (.keyError "cpd columns not in index") := rfl

/-- C6: `get_response` does not propagate a typed error on a non-200
response: it prints and returns `None` for every non-200 status. -/
theorem get_response_non200_returns_none (status : ℕ) (feed : RawFeed)
    (h : status ≠ 200) : get_response status feed = none := by
  simp [get_response, h]

theorem get_response_non200_returns_none_witness :
    (404 ≠ 200) ∧ get_response 404 [] = none :=
  ⟨by decide, get_response_non200_returns_none 404 [] (by decide)⟩

/-- C4: on the spec's two-row scenario (Apophis / Bennu), `make_dict`
returns hazardous count 1, max-diameter name "Apophis" and minimal
collision hours 0. -/
theorem make_dict_two_row_scenario :
    make_dict [apophisRow, bennuRow] = .ok
      { potentially_hazardous_count := 1,
        name_with_max_estimated_diam := "Apophis",
        min_collision_hours := 0 } := by
  norm_num +decide [make_dict, apophisRow, bennuRow, seriesMin, npDiv, npDiv360,
    pyRoundFloat, pfLe, max_def]
  apply pyRound_eq_of_lt_half <;> norm_num

/-- C2: `make_dict` divides by 360, not 3600.  On the single row with
miss distance 720 km and velocity 1 km/s the code returns 2 collision
hours, while the claimed formula `round((720 / 1) / 3600)` yields 0. -/
theorem make_dict_uses_360_not_3600 :
    make_dict [row720] = .ok
      { potentially_hazardous_count := 0,
        name_with_max_estimated_diam := "R720",
        min_collision_hours := 2 } ∧
    pyRound (720 / 1 / 3600) = 0 := by
  constructor
  · norm_num +decide [make_dict, row720, seriesMin, npDiv, npDiv360,
      pyRoundFloat, pfLe, max_def]
    apply pyRound_eq_of_lt_half (n := 2) <;> norm_num
  · apply pyRound_eq_of_lt_half (n := 0) <;> norm_num

/-- C8: a zero relative velocity does not make `make_dict` fail with a
division-by-zero error: numpy float division yields infinity, the
minimum ignores it in favour of the finite row, and the summariser
returns a numeric result. -/
theorem make_dict_zero_velocity_returns_numeric :
    make_dict [rowZeroVel, row360] = .ok
      { potentially_hazardous_count := 0,
        name_with_max_estimated_diam := "ZeroVel",
        min_collision_hours := 1 } := by
  norm_num +decide [make_dict, rowZeroVel, row360, seriesMin, npDiv, npDiv360,
    pyRoundFloat, pfLe, max_def]
  apply pyRound_eq_of_lt_half (n := 1) <;> norm_num

/-- The single flat row produced from `asteroidOk` and `eventA`. -/
def flatRowOk : FlatRow :=
  { id := 11, name := "Ok", is_potentially_hazardous_asteroid := true,
    estimated_diameter_min_km := 1/10, estimated_diameter_max_km := 1/2,
    relative_velocity_km_sec := 7, miss_distance_km := 50000,
    searching_date := "2023-01-01" }

/-! ## Structure lemmas about the flattener -/

lemma normalize_day_length (recs : List AsteroidRecord) :
    (normalize_day recs).length =
      (recs.map fun a => a.close_approach_data.length).sum := by
  induction recs with
  | nil => rfl
  | cons a rest ih =>
    simp only [normalize_day, List.flatMap_cons, List.length_append,
      List.length_map, List.map_cons, List.sum_cons]
    have h := ih
    simp only [normalize_day] at h
    omega

lemma mem_normalize_day {recs : List AsteroidRecord} {pr : PairRow} :
    pr ∈ normalize_day recs ↔
      ∃ a ∈ recs, ∃ e ∈ a.close_approach_data, pr = pairRowOf a e := by
  simp only [normalize_day, List.mem_flatMap, List.mem_map]
  constructor
  · rintro ⟨a, ha, e, he, rfl⟩
    exact ⟨a, ha, e, he, rfl⟩
  · rintro ⟨a, ha, e, he, rfl⟩
    exact ⟨a, ha, e, he, rfl⟩

lemma select_day_ok {recs : List AsteroidRecord} {rows : List PairRow}
    (h : select_day recs = .ok rows) : rows = normalize_day recs := by
  unfold select_day at h
  split at h
  · cases h
  · simp only [Except.ok.injEq] at h
    exact h.symm

lemma collect_days_ok {raw : RawFeed} {pairs : List PairRow}
    (h : collect_days raw = .ok pairs) :
    pairs.length = eventCount raw ∧
    ∀ pr ∈ pairs, ∃ p ∈ raw, ∃ a ∈ p.2, ∃ e ∈ a.close_approach_data,
      pr = pairRowOf a e := by
  induction raw generalizing pairs with
  | nil =>
    simp only [collect_days, Except.ok.injEq] at h
    subst h
    exact ⟨rfl, by simp⟩
  | cons hd rest ih =>
    obtain ⟨d, recs⟩ := hd
    simp only [collect_days] at h
    cases hs : select_day recs with
    | error e => rw [hs] at h; cases h
    | ok rows =>
      rw [hs] at h
      cases hc : collect_days rest with
      | error e => rw [hc] at h; cases h
      | ok more =>
        rw [hc] at h
        simp only [Except.ok.injEq] at h
        subst h
        obtain ⟨ih1, ih2⟩ := ih hc
        have hrows := select_day_ok hs
        subst hrows
        constructor
        · simp only [List.length_append, eventCount, List.map_cons, List.sum_cons]
          have hnl := normalize_day_length recs
          simp only [eventCount] at ih1
          omega
        · intro pr hpr
          rcases List.mem_append.mp hpr with hl | hr
          · obtain ⟨a, ha, e, he, rfl⟩ := mem_normalize_day.mp hl
            exact ⟨(d, recs), by simp, a, ha, e, he, rfl⟩
          · obtain ⟨p, hp, a, ha, e, he, rfl⟩ := ih2 pr hr
            exact ⟨p, by simp [hp], a, ha, e, he, rfl⟩

lemma extract_diam_ok {pairs : List PairRow} {rows : List FlatRow}
    (h : extract_diam pairs = .ok rows) :
    rows.length = pairs.length ∧
    ∀ r ∈ rows, ∃ pr ∈ pairs,
      pr.estimated_diameter.kilometers =
        some (r.estimated_diameter_min_km, r.estimated_diameter_max_km) ∧
      r.id = pr.id ∧ r.name = pr.name ∧
      r.is_potentially_hazardous_asteroid = pr.is_potentially_hazardous_asteroid ∧
      r.relative_velocity_km_sec = pr.relative_velocity_km_sec ∧
      r.miss_distance_km = pr.miss_distance_km ∧
      r.searching_date = pr.close_approach_date := by
  induction pairs generalizing rows with
  | nil =>
    simp only [extract_diam, Except.ok.injEq] at h
    subst h
    exact ⟨rfl, by simp⟩
  | cons pr rest ih =>
    simp only [extract_diam] at h
    cases hk : pr.estimated_diameter.kilometers with
    | none => rw [hk] at h; cases h
    | some mnmx =>
      obtain ⟨mn, mx⟩ := mnmx
      rw [hk] at h
      cases he : extract_diam rest with
      | error e => rw [he] at h; cases h
      | ok more =>
        rw [he] at h
        simp only [Except.ok.injEq] at h
        subst h
        obtain ⟨ih1, ih2⟩ := ih he
        refine ⟨by simp [ih1], ?_⟩
        intro r hr
        rcases List.mem_cons.mp hr with rfl | hrm
        · exact ⟨pr, List.mem_cons_self _ _, hk, rfl, rfl, rfl, rfl, rfl, rfl⟩
        · obtain ⟨pr2, hpr2, rest2⟩ := ih2 r hrm
          exact ⟨pr2, List.mem_cons_of_mem _ hpr2, rest2⟩

/-- C1: whenever `transform_data` succeeds on a non-empty feed it emits
exactly one row per (AsteroidRecord, CloseApproachEvent) pair: the row
count is the total close-approach-event count of the feed, and each row
repeats its asteroid's id, name, hazard flag and kilometer diameter
extremes alongside its event's velocity, miss distance and date. -/
theorem transform_data_row_count (raw : RawFeed) (rows : List FlatRow)
    (_hne : raw ≠ []) (h : transform_data raw = .ok rows) :
    rows.length = eventCount raw ∧
    ∀ r ∈ rows, ∃ p ∈ raw, ∃ a ∈ p.2, ∃ e ∈ a.close_approach_data,
      r.id = a.id ∧ r.name = a.name ∧
      r.is_potentially_hazardous_asteroid = a.is_potentially_hazardous_asteroid ∧
      a.estimated_diameter.kilometers =
        some (r.estimated_diameter_min_km, r.estimated_diameter_max_km) ∧
      r.relative_velocity_km_sec = e.relative_velocity_km_sec ∧
      r.miss_distance_km = e.miss_distance_km ∧
      r.searching_date = e.close_approach_date := by
  unfold transform_data at h
  cases hc : collect_days raw with
  | error e => rw [hc] at h; cases h
  | ok pairs =>
    rw [hc] at h
    obtain ⟨hlen1, hmem1⟩ := collect_days_ok hc
    obtain ⟨hlen2, hmem2⟩ := extract_diam_ok h
    refine ⟨by omega, ?_⟩
    intro r hr
    obtain ⟨pr, hpr, hkm, hid, hname, hhaz, hvel, hmiss, hdate⟩ := hmem2 r hr
    obtain ⟨p, hp, a, ha, e, he, rfl⟩ := hmem1 pr hpr
    exact ⟨p, hp, a, ha, e, he, hid, hname, hhaz, hkm, hvel, hmiss, hdate⟩

theorem transform_data_row_count_witness :
    [flatRowOk].length = eventCount [("2023-01-01", [asteroidOk])] ∧
    ∀ r ∈ [flatRowOk], ∃ p ∈ ([("2023-01-01", [asteroidOk])] : RawFeed),
      ∃ a ∈ p.2, ∃ e ∈ a.close_approach_data,
      r.id = a.id ∧ r.name = a.name ∧
      r.is_potentially_hazardous_asteroid = a.is_potentially_hazardous_asteroid ∧
      a.estimated_diameter.kilometers =
        some (r.estimated_diameter_min_km, r.estimated_diameter_max_km) ∧
      r.relative_velocity_km_sec = e.relative_velocity_km_sec ∧
      r.miss_distance_km = e.miss_distance_km ∧
      r.searching_date = e.close_approach_date :=
  transform_data_row_count [("2023-01-01", [asteroidOk])] [flatRowOk]
    (by simp) rfl

/-! ## Missing kilometer-unit field (C5) -/

lemma extract_diam_error_of_none {pairs : List PairRow}
    (h : ∃ pr ∈ pairs, pr.estimated_diameter.kilometers = none) :
    ∃ err, extract_diam pairs = .error err := by
  induction pairs with
  | nil => simp at h
  | cons pr rest ih =>
    simp only [extract_diam]
    cases hk : pr.estimated_diameter.kilometers with
    | none => exact ⟨.keyError "kilometers", rfl⟩
    | some mnmx =>
      obtain ⟨mn, mx⟩ := mnmx
      obtain ⟨w, hw, hwnone⟩ := h
      rcases List.mem_cons.mp hw with rfl | hwr
      · rw [hk] at hwnone; cases hwnone
      · obtain ⟨err, herr⟩ := ih ⟨w, hwr, hwnone⟩
        rw [herr]
        exact ⟨err, rfl⟩

lemma collect_days_mem_of {raw : RawFeed} {pairs : List PairRow}
    (h : collect_days raw = .ok pairs) {p : String × List AsteroidRecord}
    {a : AsteroidRecord} {e : CloseApproachEvent}
    (hp : p ∈ raw) (ha : a ∈ p.2) (he : e ∈ a.close_approach_data) :
    pairRowOf a e ∈ pairs := by
  induction raw generalizing pairs with
  | nil => cases hp
  | cons hd rest ih =>
    obtain ⟨d, recs⟩ := hd
    simp only [collect_days] at h
    cases hs : select_day recs with
    | error e2 => rw [hs] at h; cases h
    | ok rows =>
      rw [hs] at h
      cases hc : collect_days rest with
      | error e2 => rw [hc] at h; cases h
      | ok more =>
        rw [hc] at h
        simp only [Except.ok.injEq] at h
        subst h
        rcases List.mem_cons.mp hp with rfl | hpr
        · have hmem : pairRowOf a e ∈ normalize_day recs :=
            mem_normalize_day.mpr ⟨a, ha, e, he, rfl⟩
          rw [select_day_ok hs]
          exact List.mem_append.mpr (.inl hmem)
        · exact List.mem_append.mpr (.inr (ih hc hpr))

/-- C5 counterexample: a feed containing an asteroid whose diameter
structure lacks the kilometer field but which has no close-approach
events.  The asteroid contributes no normalized rows, the diameter
lambdas never read it, and `transform_data` succeeds — so the claim
"any record lacking the kilometer field makes the flattener fail" is
false as stated. -/
theorem transform_data_missing_km_can_succeed :
    asteroidNoKm.estimated_diameter.kilometers = none ∧
    transform_data [("2023-01-01", [asteroidNoKm, asteroidOk])] = .ok [flatRowOk] :=
  ⟨rfl, rfl⟩

/-- C5 (amended): if some asteroid of the feed lacks the kilometer-unit
diameter field **and** has at least one close-approach event, then
`transform_data` fails (with a `KeyError`, the malformed-record
condition); it never substitutes default diameters. -/
theorem transform_data_missing_km_fails (raw : RawFeed)
    (h : ∃ p ∈ raw, ∃ a ∈ p.2, a.estimated_diameter.kilometers = none ∧
      a.close_approach_data ≠ []) :
    ∃ err, transform_data raw = .error err := by
  obtain ⟨p, hp, a, ha, hkm, hev⟩ := h
  unfold transform_data
  cases hc : collect_days raw with
  | error e => exact ⟨e, rfl⟩
  | ok pairs =>
    obtain ⟨e0, he0⟩ := List.exists_mem_of_ne_nil a.close_approach_data hev
    have hmem := collect_days_mem_of hc hp ha he0
    have hnone : (pairRowOf a e0).estimated_diameter.kilometers = none := hkm
    exact extract_diam_error_of_none ⟨pairRowOf a e0, hmem, hnone⟩

theorem transform_data_missing_km_fails_witness :
    ∃ err, transform_data [("2023-01-01", [asteroidNoKmEvents])] = .error err :=
  transform_data_missing_km_fails [("2023-01-01", [asteroidNoKmEvents])]
    ⟨("2023-01-01", [asteroidNoKmEvents]), by simp, asteroidNoKmEvents, by simp,
     rfl, by simp [asteroidNoKmEvents]⟩

/-! ## Store round-trip (C9) -/

lemma pyRound_intCast (n : ℤ) : pyRound (n : ℚ) = n :=
  pyRound_eq_of_lt_half _ n le_rfl (by linarith)

lemma int_log_two_eq {q : ℚ} {e : ℤ} (hq : 0 < q) (h1 : (2 : ℚ) ^ e ≤ q)
    (h2 : q < 2 ^ (e + 1)) : Int.log 2 q = e := by
  have ha : ((2 : ℕ) : ℚ) ^ Int.log 2 q ≤ q :=
    Int.zpow_log_le_self (by norm_num) hq
  have hb : q < ((2 : ℕ) : ℚ) ^ (Int.log 2 q + 1) :=
    Int.lt_zpow_succ_log_self (by norm_num) q
  push_cast at ha hb
  by_contra hne
  rcases lt_or_gt_of_ne hne with hlt | hgt
  · have hle : (2 : ℚ) ^ (Int.log 2 q + 1) ≤ 2 ^ e :=
      zpow_le_zpow_right₀ (by norm_num) (by omega)
    linarith
  · have hle : (2 : ℚ) ^ (e + 1) ≤ 2 ^ Int.log 2 q :=
      zpow_le_zpow_right₀ (by norm_num) (by omega)
    linarith

lemma posRound_eq_of {p : ℤ} {q : ℚ} {e : ℤ} (hq : 0 < q)
    (h1 : (2 : ℚ) ^ e ≤ q) (h2 : q < 2 ^ (e + 1)) :
    posRound p q =
      (pyRound (q * 2 ^ (p - 1 - e)) : ℚ) * 2 ^ (e - p + 1) := by
  rw [posRound, if_neg hq.ne', int_log_two_eq hq h1 h2]

lemma posRound_53_of_24 {q : ℚ} (hq : 0 < q) (h : posRound 24 q = q) :
    posRound 53 q = q := by
  have h2 : (2 : ℚ) ≠ 0 := by norm_num
  rw [posRound, if_neg hq.ne'] at h
  rw [posRound, if_neg hq.ne']
  set e := Int.log 2 q with he
  set k := pyRound (q * 2 ^ ((24 : ℤ) - 1 - e)) with hk
  have key : q * 2 ^ ((53 : ℤ) - 1 - e) = ((k * 2 ^ 29 : ℤ) : ℚ) := by
    rw [← h, mul_assoc, ← zpow_add₀ h2]
    have hexp : e - (24 : ℤ) + 1 + ((53 : ℤ) - 1 - e) = (29 : ℤ) := by ring
    rw [hexp]
    push_cast
    norm_num
  rw [key, pyRound_intCast, ← h]
  push_cast
  have hz : (2 : ℚ) ^ (e - 24 + 1) = 536870912 * 2 ^ (e - 53 + 1) := by
    rw [show e - 24 + 1 = 29 + (e - 53 + 1) by ring, zpow_add₀ h2]
    norm_num
  rw [hz]
  ring

lemma floatRound_53_of_24 {q : ℚ} (h : floatRound 24 q = q) :
    floatRound 53 q = q := by
  by_cases hneg : q < 0
  · rw [floatRound, if_pos hneg] at h
    rw [floatRound, if_pos hneg]
    have h' : posRound 24 (-q) = -q := by linarith
    rw [posRound_53_of_24 (by linarith) h']
    ring
  · rw [floatRound, if_neg hneg] at h
    rw [floatRound, if_neg hneg]
    rcases eq_or_lt_of_le (not_lt.mp hneg) with h0 | hpos
    · rw [← h0]
      simp [posRound]
    · exact posRound_53_of_24 hpos h

/-- The miss distance 1000 km is exactly representable in the `REAL`
column. -/
lemma floatRound_24_thousand : floatRound 24 (1000 : ℚ) = 1000 := by
  have hp : pyRound (16384000 : ℚ) = 16384000 :=
    pyRound_eq_of_lt_half _ 16384000 (by norm_num) (by norm_num)
  rw [floatRound, if_neg (by norm_num),
    posRound_eq_of (e := 9) (by norm_num) (by norm_num) (by norm_num)]
  norm_num [hp]

/-- Storage of 0.1 km in the `REAL` column: the nearest binary32 value. -/
lemma floatRound_24_tenth : floatRound 24 (1 / 10 : ℚ) = 13421773 / 2 ^ 27 := by
  have hp : pyRound (67108864 / 5 : ℚ) = 13421773 := by
    rw [pyRound_eq_of_half_lt (67108864 / 5 : ℚ) 13421772 (by norm_num)
      (by norm_num)]
    norm_num
  rw [floatRound, if_neg (by norm_num),
    posRound_eq_of (e := -4) (by norm_num) (by norm_num) (by norm_num)]
  norm_num [hp]

/-- The binary64 value of the literal 0.1. -/
lemma floatRound_53_tenth :
    floatRound 53 (1 / 10 : ℚ) = 7205759403792794 / 2 ^ 56 := by
  have hp : pyRound (36028797018963968 / 5 : ℚ) = 7205759403792794 := by
    rw [pyRound_eq_of_half_lt (36028797018963968 / 5 : ℚ) 7205759403792793
      (by norm_num) (by norm_num)]
    norm_num
  rw [floatRound, if_neg (by norm_num),
    posRound_eq_of (e := -4) (by norm_num) (by norm_num) (by norm_num)]
  norm_num [hp]

/-- A flat row whose miss distance 0.1 km is not representable in the
`REAL` column. -/
def row01 : FlatRow :=
  { id := 6, name := "PointOne", is_potentially_hazardous_asteroid := false,
    estimated_diameter_min_km := 1/2, estimated_diameter_max_km := 1,
    relative_velocity_km_sec := 1, miss_distance_km := 1/10,
    searching_date := "2023-01-05" }

/-- C9 counterexample: the row with miss distance 0.1 km is inserted, but
looking it up with its exact approach date and exact miss-distance value
returns a list that does not contain its name: the `REAL` column stores
the nearest binary32 (13421773/2^27) while the comparison uses the
binary64 value of the literal (7205759403792794/2^56), and they differ.
So the exact-value round-trip claim is false as stated. -/
theorem insert_then_lookup_float_loss :
    row01 ∈ [row01] ∧
    row01.name ∉ get_information (insert_data [] [row01])
      row01.searching_date row01.miss_distance_km := by
  refine ⟨by simp, ?_⟩
  intro hmem
  obtain ⟨r, hr, _⟩ := List.mem_map.mp hmem
  obtain ⟨hrt, hcond⟩ := List.mem_filter.mp hr
  simp only [Bool.and_eq_true, beq_iff_eq] at hcond
  have hr1 : r = storeRow row01 := by
    simpa [insert_data] using hrt
  rw [hr1] at hcond
  have hmiss : (storeRow row01).miss_distance_km
      = floatRound 53 row01.miss_distance_km := hcond.2
  rw [show (storeRow row01).miss_distance_km = floatRound 24 (1/10 : ℚ) from rfl,
    show row01.miss_distance_km = (1/10 : ℚ) from rfl,
    floatRound_24_tenth, floatRound_53_tenth] at hmiss
  norm_num at hmiss

/-- C9 (amended): rows are persisted with their `REAL` columns quantised
to binary32 and the lookup compares the stored value with the binary64
value of the spliced literal.  For a row whose miss distance is exactly
representable in the `REAL` column, looking up its exact date and exact
miss-distance value returns a list containing the row's name; and in
general every returned name comes from a persisted row whose date matches
and whose stored miss distance equals the binary64 value of the argument
(rows failing either comparison contribute nothing). -/
theorem insert_then_lookup_real_column (table df : List FlatRow) (row : FlatRow)
    (h : row ∈ df)
    (hrep : floatRound 24 row.miss_distance_km = row.miss_distance_km) :
    row.name ∈ get_information (insert_data table df)
      row.searching_date row.miss_distance_km ∧
    ∀ n ∈ get_information (insert_data table df)
        row.searching_date row.miss_distance_km,
      ∃ r ∈ insert_data table df,
        r.searching_date = row.searching_date ∧
        r.miss_distance_km = floatRound 53 row.miss_distance_km ∧
        r.name = n := by
  have h53 := floatRound_53_of_24 hrep
  constructor
  · apply List.mem_map.mpr
    refine ⟨storeRow row, ?_, rfl⟩
    apply List.mem_filter.mpr
    refine ⟨List.mem_append.mpr (.inr (List.mem_map_of_mem storeRow h)), ?_⟩
    simp [storeRow, hrep, h53]
  · intro n hn
    obtain ⟨r, hr, rfl⟩ := List.mem_map.mp hn
    obtain ⟨hrt, hcond⟩ := List.mem_filter.mp hr
    simp only [Bool.and_eq_true, beq_iff_eq] at hcond
    exact ⟨r, hrt, hcond.1, hcond.2, rfl⟩

theorem insert_then_lookup_real_column_witness :
    apophisRow.name ∈ get_information (insert_data [row360] [apophisRow])
      apophisRow.searching_date apophisRow.miss_distance_km ∧
    ∀ n ∈ get_information (insert_data [row360] [apophisRow])
        apophisRow.searching_date apophisRow.miss_distance_km,
      ∃ r ∈ insert_data [row360] [apophisRow],
        r.searching_date = apophisRow.searching_date ∧
        r.miss_distance_km = floatRound 53 apophisRow.miss_distance_km ∧
        r.name = n :=
  insert_then_lookup_real_column [row360] [apophisRow] apophisRow (by simp)
    floatRound_24_thousand

/-! ## SQL splicing (C10) -/

lemma takeWhile_append_eq_left {α : Type} {p : α → Bool} {l₁ l₂ : List α}
    {x : α} (hx : x ∈ l₁) (hpx : p x = false) :
    (l₁ ++ l₂).takeWhile p = l₁.takeWhile p := by
  induction l₁ with
  | nil => cases hx
  | cons a t ih =>
    cases hpa : p a with
    | false => simp [List.takeWhile_cons, hpa]
    | true =>
      rcases List.mem_cons.mp hx with rfl | hxt
      · rw [hpa] at hpx; cases hpx
      · simp [List.takeWhile_cons, hpa, ih hxt]

/-- C10: the lookup query is built by verbatim string splicing with no
escaping, so whenever the date argument contains a single quote, the
date literal a SQL parser reads from the built query text differs from
the argument — the executed query is not an exact-equality match on the
argument as data. -/
theorem lookup_query_quote_breaks_exact_match (d m : String)
    (h : squote ∈ d.data) :
    parsedDateLiteral (lookup_query d m) ≠ d := by
  intro heq
  have hdata : (parsedDateLiteral (lookup_query d m)).data = d.data := by
    rw [heq]
  have hhead : ∀ c ∈ queryHead.data, (c != squote) = true := by decide
  have hq : (squote != squote) = false := by simp
  unfold parsedDateLiteral lookup_query at hdata
  simp only [String.data_append, String.data_singleton, List.append_assoc,
    List.singleton_append, List.cons_append] at hdata
  have hq2 : ¬((fun c => c != squote) squote = true) := by simp
  rw [List.dropWhile_append_of_pos hhead,
    List.dropWhile_cons_of_neg (p := fun c => c != squote) hq2] at hdata
  simp only [List.drop_succ_cons, List.drop_zero, List.nil_append] at hdata
  rw [takeWhile_append_eq_left (p := fun c => c != squote) h hq] at hdata
  have hall := List.takeWhile_eq_self_iff.mp hdata squote h
  rw [hq] at hall
  cases hall

/-- A date argument containing a single quote (as an injection payload
would). -/
def dateWithQuote : String := "2023-01-23" ++ String.singleton squote ++ " OR 1=1"

theorem lookup_query_quote_breaks_exact_match_witness :
    squote ∈ dateWithQuote.data ∧
    parsedDateLiteral (lookup_query dateWithQuote "4.8695064e+07") ≠ dateWithQuote :=
  ⟨by simp [dateWithQuote],
   lookup_query_quote_breaks_exact_match dateWithQuote "4.8695064e+07"
     (by simp [dateWithQuote])⟩
